import Mathlib

/-!
Verification of the jira-processor classification engine.

The definitions below are a shallow embedding of the Python sources
`scripts/utils/jira_patterns.py`, `scripts/utils/code_mapper.py`,
`scripts/utils/comment_detector.py` and `scripts/analyze_ticket.py`.
Strings are Lean strings, Python floats are modelled as rationals, and the
fixed regular expressions of `jira_patterns.py` are compiled by hand into
deterministic scanners with Python `re.findall` semantics (leftmost,
non-overlapping, group-capture results).  Python's `\w`, `\s`, `\d` and
`\b` are Unicode-aware; they are modelled here over the ASCII alphabet,
which covers every keyword table and every input considered.
-/

set_option maxRecDepth 10000

namespace JiraProc

/-! ### String helpers (Python `in`, `lower`, `endswith`, `replace`) -/

/-- Character-list version of string prefix test. -/
def isPrefixCL : List Char → List Char → Bool
  | [], _ => true
  | _ :: _, [] => false
  | a :: as, b :: bs => a == b && isPrefixCL as bs

/-- Character-list version of Python's substring containment `needle in hay`. -/
def isSubstrCL (needle : List Char) : List Char → Bool
  | [] => isPrefixCL needle []
  | c :: rest => isPrefixCL needle (c :: rest) || isSubstrCL needle rest

/-- Python `needle in hay` on strings. -/
def isSubstr (needle hay : String) : Bool :=
  isSubstrCL needle.data hay.data

/-- Python `str.lower()` (ASCII). -/
def lowerStr (s : String) : String :=
  ⟨s.data.map Char.toLower⟩

/-- Python `s.endswith(suffix)`. -/
def endsWithStr (s sfx : String) : Bool :=
  isPrefixCL sfx.data.reverse s.data.reverse

/-- Fuelled worker for `pyReplace`. -/
def replaceAllCL (pat rep : List Char) : Nat → List Char → List Char
  | 0, l => l
  | _ + 1, [] => []
  | fuel + 1, c :: rest =>
    if isPrefixCL pat (c :: rest) then
      rep ++ replaceAllCL pat rep fuel ((c :: rest).drop pat.length)
    else
      c :: replaceAllCL pat rep fuel rest

/-- Python `s.replace(pat, rep)`: replaces every non-overlapping occurrence,
left to right. -/
def pyReplace (s pat rep : String) : String :=
  ⟨replaceAllCL pat.data rep.data (s.data.length + 1) s.data⟩

/-- Lexicographic code-point comparison of character lists. -/
def listLtCL : List Char → List Char → Bool
  | [], [] => false
  | [], _ :: _ => true
  | _ :: _, [] => false
  | a :: as, b :: bs => if a < b then true else if b < a then false else listLtCL as bs

/-- Python `a < b` on strings: lexicographic comparison by code point. -/
def strLt (a b : String) : Bool :=
  listLtCL a.data b.data

/-- Python `", ".join(l)`. -/
def joinComma : List String → String
  | [] => ""
  | [s] => s
  | s :: rest => s ++ ", " ++ joinComma rest

/-! ### Keyword tables (`jira_patterns.py` lines 6-50) -/

def CODE_CHANGE_KEYWORDS : List String :=
  ["add", "implement", "create", "build", "develop",
   "fix", "bug", "error", "broken", "failing",
   "update", "modify", "change", "refactor",
   "remove", "delete", "deprecate",
   "configure", "enable", "disable",
   "integrate", "connect", "support"]

def INVESTIGATION_KEYWORDS : List String :=
  ["not appearing", "not showing", "missing",
   "why", "investigate", "check", "look into",
   "cannot find", "doesn't exist", "no results",
   "no longer", "not working", "broken link"]

def SKIP_KEYWORDS : List String :=
  ["meeting", "waiting for", "blocked by",
   "pending approval", "need access", "credentials required",
   "documentation only", "write docs", "update readme"]

def TEST_KEYWORDS : List String :=
  ["add test", "write test", "ensure tests pass", "tests should pass",
   "unit test", "integration test", "test coverage", "pytest",
   "test for", "verify with tests", "run tests"]

def BUILD_KEYWORDS : List String :=
  ["fix build", "build failure", "lint error", "type error",
   "mypy", "pylint", "flake8", "ruff", "black", "isort",
   "compilation error", "syntax error", "import error"]

def VAGUE_KEYWORDS : List String :=
  ["improve", "enhance", "better", "optimize", "cleanup",
   "refactor where needed", "as needed", "if possible",
   "consider", "maybe", "perhaps", "could", "might want to"]

def DESIGN_DECISION_KEYWORDS : List String :=
  ["decide how", "choose between", "evaluate options",
   "design", "architect", "propose", "research alternatives",
   "which approach", "what strategy", "determine the best"]

/-! ### Regex scanners

The four patterns of `jira_patterns.py` lines 52-55:

* `ISBN_PATTERN    = \b(978\d{10})\b`
* `FILE_PATTERN    = \b[\w/]+\.(py|yaml|json|xml)\b`
* `FUNCTION_PATTERN = \b(def\s+\w+|class\s+\w+|\w+\(\))\b`
* `URL_PATTERN     = https?://[^\s<>"]+`

Each `matchXAt prev cs` attempts a match at the current position (with
`prev` the character just before it, for `\b`), returning the token that
`re.findall` would record (the capture group where one exists), the last
consumed character, and the remaining input. -/

/-- Python regex `\w` (ASCII). -/
def isWordChar (c : Char) : Bool :=
  c.isAlphanum || c == '_'

/-- Word-character test seen by `\b` for an optional character
(out-of-string counts as non-word). -/
def optIsWord : Option Char → Bool
  | none => false
  | some c => isWordChar c

/-- Match `\b(978\d{10})\b` at the current position. -/
def matchIsbnAt (prev : Option Char) (cs : List Char) : Option (String × Char × List Char) :=
  if optIsWord prev then none
  else if isPrefixCL ['9', '7', '8'] cs then
    let r := cs.drop 3
    let d10 := r.take 10
    if d10.length == 10 && d10.all Char.isDigit && !optIsWord (r.drop 10).head? then
      some (⟨'9' :: '7' :: '8' :: d10⟩, d10.getLastD '8', r.drop 10)
    else none
  else none

/-- Try one extension alternative of `FILE_PATTERN` after the dot:
the literal extension followed by a closing `\b`. -/
def tryFileExt (ext : List Char) (last : Char) (rest : List Char) : Option (String × Char × List Char) :=
  if isPrefixCL ext rest && !optIsWord (rest.drop ext.length).head? then
    some (⟨ext⟩, last, rest.drop ext.length)
  else none

/-- Match `\b[\w/]+\.(py|yaml|json|xml)\b` at the current position.  The
emitted token is the capture group, i.e. only the extension: this is what
`re.findall` returns when the pattern holds one group. -/
def matchFileAt (prev : Option Char) (cs : List Char) : Option (String × Char × List Char) :=
  let run := cs.takeWhile (fun c => isWordChar c || c == '/')
  match run with
  | [] => none
  | r0 :: _ =>
    if optIsWord prev == isWordChar r0 then none
    else
      match cs.drop run.length with
      | '.' :: rest =>
        match tryFileExt ['p', 'y'] 'y' rest with
        | some res => some res
        | none =>
          match tryFileExt ['y', 'a', 'm', 'l'] 'l' rest with
          | some res => some res
          | none =>
            match tryFileExt ['j', 's', 'o', 'n'] 'n' rest with
            | some res => some res
            | none => tryFileExt ['x', 'm', 'l'] 'l' rest
      | _ => none

/-- Match the `def\s+\w+` or `class\s+\w+` alternative (with `kw` the
literal keyword); the trailing `\b` always holds after a maximal `\w+` run. -/
def matchDefClass (kw : List Char) (cs : List Char) : Option (String × Char × List Char) :=
  if isPrefixCL kw cs then
    let r := cs.drop kw.length
    let ws := r.takeWhile Char.isWhitespace
    match ws with
    | [] => none
    | _ =>
      let r2 := r.drop ws.length
      let w := r2.takeWhile isWordChar
      match w with
      | [] => none
      | _ => some (⟨kw ++ ws ++ w⟩, w.getLastD 'x', r2.drop w.length)
  else none

/-- Match the `\w+\(\)` alternative: a word run, then `()`, then the
closing `\b`, which after `)` (a non-word character) requires the NEXT
character to be a word character. -/
def matchCallToken (cs : List Char) : Option (String × Char × List Char) :=
  let w := cs.takeWhile isWordChar
  match w with
  | [] => none
  | _ =>
    match cs.drop w.length with
    | '(' :: ')' :: rest =>
      if optIsWord rest.head? then some (⟨w ++ ['(', ')']⟩, ')', rest)
      else none
    | _ => none

/-- Match `\b(def\s+\w+|class\s+\w+|\w+\(\))\b` at the current position;
alternatives are tried in the pattern's order. -/
def matchFunctionAt (prev : Option Char) (cs : List Char) : Option (String × Char × List Char) :=
  if optIsWord prev then none
  else
    match matchDefClass ['d', 'e', 'f'] cs with
    | some res => some res
    | none =>
      match matchDefClass ['c', 'l', 'a', 's', 's'] cs with
      | some res => some res
      | none => matchCallToken cs

/-- Characters allowed in the URL tail `[^\s<>"]+`. -/
def isUrlChar (c : Char) : Bool :=
  !c.isWhitespace && !(c == '<') && !(c == '>') && !(c == '"')

/-- Match `://` plus a nonempty URL tail, given the scheme characters
already consumed. -/
def tryUrlTail (scheme : List Char) (r : List Char) : Option (String × Char × List Char) :=
  if isPrefixCL [':', '/', '/'] r then
    let r2 := r.drop 3
    let run := r2.takeWhile isUrlChar
    match run with
    | [] => none
    | _ => some (⟨scheme ++ [':', '/', '/'] ++ run⟩, run.getLastD '/', r2.drop run.length)
  else none

/-- Match `https?://[^\s<>"]+` at the current position (no `\b`, no group:
the whole match is the token).  The optional `s` is tried greedily first. -/
def matchUrlAt (_prev : Option Char) (cs : List Char) : Option (String × Char × List Char) :=
  if isPrefixCL ['h', 't', 't', 'p'] cs then
    let afterHttp := cs.drop 4
    match afterHttp with
    | 's' :: r =>
      match tryUrlTail ['h', 't', 't', 'p', 's'] r with
      | some res => some res
      | none => tryUrlTail ['h', 't', 't', 'p'] afterHttp
    | _ => tryUrlTail ['h', 't', 't', 'p'] afterHttp
  else none

/-- `re.findall` driver: at each position try the matcher; on success emit
the token and resume after the match, otherwise advance one character.
Every matcher consumes at least one character, so fuel `length + 1` is
never exhausted. -/
def scanAux (step : Option Char → List Char → Option (String × Char × List Char)) :
    Nat → Option Char → List Char → List String
  | 0, _, _ => []
  | _ + 1, _, [] => []
  | fuel + 1, prev, c :: cs =>
    match step prev (c :: cs) with
    | some (tok, last, rest) => tok :: scanAux step fuel (some last) rest
    | none => scanAux step fuel (some c) cs

/-- Run a scanner over a whole string. -/
def runScan (step : Option Char → List Char → Option (String × Char × List Char))
    (text : String) : List String :=
  scanAux step (text.data.length + 1) none text.data

/-- `extract_isbns` (`jira_patterns.py` lines 58-60). -/
def extract_isbns (text : String) : List String :=
  runScan matchIsbnAt text

/-- `extract_file_references` (`jira_patterns.py` lines 63-65): returns
`FILE_PATTERN.findall(text)`, i.e. the capture-group (extension) of each
match. -/
def extract_file_references (text : String) : List String :=
  runScan matchFileAt text

/-- `extract_urls` (`jira_patterns.py` lines 68-70). -/
def extract_urls (text : String) : List String :=
  runScan matchUrlAt text

/-- `extract_function_references` (`jira_patterns.py` lines 73-75). -/
def extract_function_references (text : String) : List String :=
  runScan matchFunctionAt text

/-- `find_matching_keywords` (`jira_patterns.py` lines 88-91). -/
def find_matching_keywords (text : String) (keywords : List String) : List String :=
  keywords.filter (fun kw => isSubstr (lowerStr kw) (lowerStr text))

/-- `count_keyword_matches` (`jira_patterns.py` lines 78-85). -/
def count_keyword_matches (text : String) (keywords : List String) : Nat :=
  keywords.countP (fun kw => isSubstr (lowerStr kw) (lowerStr text))

/-! ### Ticket classifier (`jira_patterns.py` lines 94-159) -/

/-- The `extracted_data` record built at `jira_patterns.py` lines 106-111. -/
structure ExtractedData where
  isbns : List String
  urls : List String
  file_refs : List String
  function_refs : List String
deriving DecidableEq

/-- The dict returned by `classify_ticket_type`. -/
structure Classification where
  type : String
  confidence : ℚ
  reason : String
  extracted_data : ExtractedData
deriving DecidableEq

/-- `full_text = f"{summary}\n{description}"` (`jira_patterns.py` line 104). -/
def fullTicketText (summary description : String) : String :=
  summary ++ "\n" ++ description

/-- All four extractions on the concatenated text (lines 106-111). -/
def extractAll (text : String) : ExtractedData :=
  ⟨extract_isbns text, extract_urls text, extract_file_references text,
   extract_function_references text⟩

/-- The `skip_matches` local of `classify_ticket_type` (line 113). -/
def skip_matches_of (summary description : String) : List String :=
  find_matching_keywords (fullTicketText summary description) SKIP_KEYWORDS

/-- `investigation_score` (lines 128-130): two points per matched
investigation keyword, plus two if any URL was extracted. -/
def investigation_score (summary description : String) : Nat :=
  (find_matching_keywords (fullTicketText summary description) INVESTIGATION_KEYWORDS).length * 2
    + (if (extractAll (fullTicketText summary description)).urls.length > 0 then 2 else 0)

/-- `code_change_score` (lines 132-136): two points per matched
code-change keyword, plus three for any file reference, plus two for any
function reference. -/
def code_change_score (summary description : String) : Nat :=
  (find_matching_keywords (fullTicketText summary description) CODE_CHANGE_KEYWORDS).length * 2
    + (if (extractAll (fullTicketText summary description)).file_refs.length > 0 then 3 else 0)
    + (if (extractAll (fullTicketText summary description)).function_refs ≠ [] then 2 else 0)

/-- `classify_ticket_type` (`jira_patterns.py` lines 94-159); the Python
locals are expressed through the helper definitions above. -/
def classify_ticket_type (summary description : String) : Classification :=
  if skip_matches_of summary description ≠ [] then
    ⟨"SKIP", 9/10,
     "Contains skip indicators: " ++ joinComma (skip_matches_of summary description),
     extractAll (fullTicketText summary description)⟩
  else if code_change_score summary description < investigation_score summary description
      ∧ 3 ≤ investigation_score summary description then
    ⟨"INVESTIGATION", min ((investigation_score summary description : ℚ) / 10) 1,
     "Investigation indicators: "
       ++ joinComma (find_matching_keywords (fullTicketText summary description) INVESTIGATION_KEYWORDS),
     extractAll (fullTicketText summary description)⟩
  else if 2 ≤ code_change_score summary description then
    ⟨"CODE_CHANGE", min ((code_change_score summary description : ℚ) / 10) 1,
     "Code change indicators: "
       ++ joinComma (find_matching_keywords (fullTicketText summary description) CODE_CHANGE_KEYWORDS),
     extractAll (fullTicketText summary description)⟩
  else
    ⟨"SKIP", 1/2, "No clear action indicators found",
     extractAll (fullTicketText summary description)⟩

/-! ### Eligibility scorer (`jira_patterns.py` lines 162-263) -/

/-- `has_test_file_for_refs` (`jira_patterns.py` lines 162-171). -/
def has_test_file_for_refs (file_refs : List String) : Bool :=
  file_refs.any (fun ref =>
    if endsWithStr ref ".py" then
      let base_name := pyReplace ref ".py" ""
      if isSubstr "test_" base_name || isSubstr "_test" base_name || isSubstr "tests" base_name then
        true
      else if isSubstr "config/" ref || isSubstr "lib/" ref || isSubstr "src/" ref then
        true
      else false
    else false)

/-- The `ticket_data` dict passed to `assess_ralph_eligibility`
(`analyze_ticket.py` line 39). -/
structure TicketData where
  summary : String
  description : String
  comments : String
deriving DecidableEq

/-- The dict returned by `assess_ralph_eligibility`. -/
structure RalphResult where
  eligible : Bool
  confidence : ℚ
  criteria_met : List String
  disqualifiers : List String
  reason : String
deriving DecidableEq

/-- The `score`, `criteria_met` and `disqualifiers` accumulators of
`assess_ralph_eligibility`. -/
structure RalphSignals where
  score : Int
  criteria_met : List String
  disqualifiers : List String
deriving DecidableEq

/-- The sequential accumulation of `assess_ralph_eligibility`
(`jira_patterns.py` lines 206-244), step by step in source order. -/
def ralphSignals (full_text : String) (extracted_data : ExtractedData) : RalphSignals :=
  let file_refs := extracted_data.file_refs
  let s0 : RalphSignals := ⟨0, [], []⟩
  let s1 := if has_test_file_for_refs file_refs then
      ⟨s0.score + 3, s0.criteria_met ++ ["existing_tests"], s0.disqualifiers⟩ else s0
  let s2 := if find_matching_keywords full_text TEST_KEYWORDS ≠ [] then
      ⟨s1.score + 2, s1.criteria_met ++ ["test_requirements"], s1.disqualifiers⟩ else s1
  let s3 := if find_matching_keywords full_text BUILD_KEYWORDS ≠ [] then
      ⟨s2.score + 2, s2.criteria_met ++ ["build_criteria"], s2.disqualifiers⟩ else s2
  let s4 := if 1 ≤ file_refs.length then
      ⟨s3.score + 1, s3.criteria_met ++ ["specific_files"], s3.disqualifiers⟩ else s3
  let s5 := if extracted_data.function_refs ≠ [] then
      ⟨s4.score + 1, s4.criteria_met ++ ["specific_functions"], s4.disqualifiers⟩ else s4
  let s6 := if find_matching_keywords full_text VAGUE_KEYWORDS ≠ [] then
      ⟨s5.score - 2, s5.criteria_met, s5.disqualifiers ++ ["vague_requirements"]⟩ else s5
  let s7 := if find_matching_keywords full_text DESIGN_DECISION_KEYWORDS ≠ [] then
      ⟨s6.score - 3, s6.criteria_met, s6.disqualifiers ++ ["requires_design_decisions"]⟩ else s6
  if file_refs = [] ∧ extracted_data.function_refs = [] then
    ⟨s7.score - 1, s7.criteria_met, s7.disqualifiers ++ ["no_specific_scope"]⟩ else s7

/-- `assess_ralph_eligibility` (`jira_patterns.py` lines 174-263).
`full_text` is rebuilt from the ticket's summary and description
(line 202); the comments entry of `ticket_data` is never read. -/
def assess_ralph_eligibility (ticket_data : TicketData) (classification : Classification) : RalphResult :=
  if classification.type ≠ "CODE_CHANGE" then
    ⟨false, 0, [], ["not_code_change"], "Not a CODE_CHANGE ticket"⟩
  else
    let sig := ralphSignals (fullTicketText ticket_data.summary ticket_data.description)
      classification.extracted_data
    let eligible := decide (3 ≤ sig.score)
      && (sig.disqualifiers.filter (fun dq => dq ≠ "no_specific_scope")).length == 0
    let confidence : ℚ := max (min ((sig.score : ℚ) / 6) 1) 0
    let reason :=
      if eligible then "Ralph-eligible: " ++ joinComma sig.criteria_met
      else if sig.disqualifiers ≠ [] then "Not Ralph-eligible: " ++ joinComma sig.disqualifiers
      else "Not Ralph-eligible: insufficient verifiable criteria (score: "
        ++ toString sig.score ++ ")"
    ⟨eligible, confidence, sig.criteria_met, sig.disqualifiers, reason⟩

/-! ### Code mapper (`code_mapper.py`)

`get_code_mapping_rules` reads repository configuration (an external
collaborator), so the mapper is parameterised by the active rule set. -/

/-- One entry of a code-mapping rule table. -/
structure CodeMappingRule where
  keywords : List String
  files : List String
deriving DecidableEq

/-- One entry of the ranked list returned by `map_keywords_to_files`. -/
structure FileMapping where
  file : String
  keywords_matched : List String
  confidence : ℚ
deriving DecidableEq

/-- `DEFAULT_CODE_MAPPING_RULES` (`code_mapper.py` lines 6-15). -/
def DEFAULT_CODE_MAPPING_RULES : List CodeMappingRule :=
  [⟨["index", "indices", "filter", "filtering", "site config"], ["config/indexConfig.py"]⟩,
   ⟨["config", "configuration", "settings"], ["config/"]⟩]

/-- `map_keywords_to_files` (`code_mapper.py` lines 32-57): per-rule keyword
matching, one entry per file of a matching rule, then a stable descending
sort on confidence (`list.sort(key=..., reverse=True)`). -/
def map_keywords_to_files (text : String) (rules : List CodeMappingRule) : List FileMapping :=
  let text_lower := lowerStr text
  let results := rules.flatMap (fun rule =>
    let matched_keywords := rule.keywords.filter (fun kw => isSubstrCL (lowerStr kw).data text_lower.data)
    if matched_keywords ≠ [] then
      let confidence := min ((matched_keywords.length : ℚ) / rule.keywords.length) 1
      rule.files.map (fun file_path => ⟨file_path, matched_keywords, confidence⟩)
    else [])
  results.mergeSort (fun a b => b.confidence ≤ a.confidence)

/-- The `seen`/`primary` loop of `get_primary_files`
(`code_mapper.py` lines 85-90). -/
def primaryLoop : List FileMapping → List String → List String
  | [], _ => []
  | m :: ms, seen =>
    if m.file ∉ seen ∧ (3 : ℚ)/10 ≤ m.confidence then
      m.file :: primaryLoop ms (m.file :: seen)
    else primaryLoop ms seen

/-- `get_primary_files` (`code_mapper.py` lines 82-91). -/
def get_primary_files (text : String) (rules : List CodeMappingRule) : List String :=
  (primaryLoop (map_keywords_to_files text rules) []).take 5

/-- First-occurrence deduplication, the specification-side description of
the `seen` set logic of `get_primary_files`. -/
def dedupFirstAux : List String → List String → List String
  | [], _ => []
  | x :: xs, seen =>
    if x ∈ seen then dedupFirstAux xs seen else x :: dedupFirstAux xs (x :: seen)

/-- First-occurrence deduplication of a list of strings. -/
def dedupFirst (l : List String) : List String :=
  dedupFirstAux l []

/-- `extract_index_from_urls` (`code_mapper.py` lines 60-69), parameterised
by the configured index mapping.  Python accumulates into a `set` whose
iteration order is unspecified; it is modelled as first-occurrence order. -/
def extract_index_from_urls (urls : List String) (mapping : List (String × String)) : List String :=
  dedupFirst (urls.flatMap (fun url =>
    (mapping.filter (fun p => isSubstr p.1 (lowerStr url))).map (fun p => p.2)))

/-- `extract_index_from_text` (`code_mapper.py` lines 72-79); the
`list(set(...))` order is modelled as first-occurrence order. -/
def extract_index_from_text (text : String) (mapping : List (String × String)) : List String :=
  dedupFirst ((mapping.filter (fun p =>
    isSubstr (lowerStr p.2) (lowerStr text) || isSubstr (lowerStr p.1) (lowerStr text))).map (fun p => p.2))

/-! ### Comment / follow-up analyzer (`comment_detector.py`) -/

/-- A raw Jira comment, restricted to the fields the detector reads:
`comment.get("author", {}).get("accountId")` and
`comment.get("created", "")`. -/
structure JComment where
  accountId : Option String
  created : String
deriving DecidableEq

/-- `find_user_comments` (`comment_detector.py` lines 7-26). -/
def find_user_comments (comments : List JComment) (user_account_id : String) : List JComment :=
  if comments.isEmpty || user_account_id == "" then []
  else comments.filter (fun c => c.accountId == some user_account_id)

/-- `get_latest_user_comment` (`comment_detector.py` lines 29-43):
Python `max(..., key=...)` keeps the first element of maximal key. -/
def get_latest_user_comment (comments : List JComment) (user_account_id : String) : Option JComment :=
  match find_user_comments comments user_account_id with
  | [] => none
  | c :: rest => some (rest.foldl (fun acc x => if strLt acc.created x.created then x else acc) c)

/-- Python truthiness of the optional `exclude_account_id` argument. -/
def excludeIsTruthy : Option String → Bool
  | none => false
  | some e => e != ""

/-- `get_comments_after` (`comment_detector.py` lines 46-74). -/
def get_comments_after (comments : List JComment) (after_timestamp : String)
    (exclude_account_id : Option String) : List JComment :=
  if comments.isEmpty || after_timestamp == "" then []
  else comments.filter (fun c =>
    strLt after_timestamp c.created
      && !(excludeIsTruthy exclude_account_id && c.accountId == exclude_account_id))

/-- `has_followup_from_others` (`comment_detector.py` lines 77-93). -/
def has_followup_from_others (comments : List JComment) (user_account_id : String) : Bool :=
  match get_latest_user_comment comments user_account_id with
  | none => false
  | some latest =>
    decide (0 < (get_comments_after comments latest.created (some user_account_id)).length)

/-! ### `analyze_ticket` (`analyze_ticket.py` lines 21-50)

The script calls `classify_ticket_type(summary, description, comments)`
(line 33) with three positional arguments, while
`jira_patterns.classify_ticket_type` declares exactly two parameters
(`jira_patterns.py` line 94).  Python raises `TypeError` for such a call
before the body runs; `classifyTicketTypeCall` models that positional-call
semantics. -/

/-- The message of the `TypeError` raised for a wrong-arity positional call
of `classify_ticket_type`. -/
def classifyTypeErrorMsg (given : Nat) : String :=
  "TypeError: classify_ticket_type() takes 2 positional arguments but "
    ++ toString given ++ " were given"

/-- Python positional-call semantics for `classify_ticket_type`: two
arguments bind the declared parameters, any other count raises. -/
def classifyTicketTypeCall : List String → Except String Classification
  | [summary, description] => Except.ok (classify_ticket_type summary description)
  | args => Except.error (classifyTypeErrorMsg args.length)

/-- The result dict of `analyze_ticket`: the classification plus the keys
attached for the matching type. -/
structure AnalyzeResult where
  classification : Classification
  suggested_files : Option (List String)
  file_mappings : Option (List FileMapping)
  ralph_eligibility : Option RalphResult
  suggested_indices : Option (List String)
deriving DecidableEq

/-- `analyze_ticket` (`analyze_ticket.py` lines 21-50), parameterised by the
configured code-mapping rules and index mapping; exceptions are modelled
with `Except`. -/
def analyze_ticket (rules : List CodeMappingRule) (idxMap : List (String × String))
    (summary description comments : String) : Except String AnalyzeResult :=
  let base := fullTicketText summary description
  let full_text := if comments ≠ "" then base ++ "\n" ++ comments else base
  match classifyTicketTypeCall [summary, description, comments] with
  | Except.error e => Except.error e
  | Except.ok classification =>
    if classification.type = "CODE_CHANGE" then
      let suggested := get_primary_files full_text rules
      let fmaps := (map_keywords_to_files full_text rules).take 5
      let ralph := assess_ralph_eligibility ⟨summary, description, comments⟩ classification
      Except.ok ⟨classification, some suggested, some fmaps, some ralph, none⟩
    else if classification.type = "INVESTIGATION" then
      let urls := extract_urls full_text
      let from_urls := extract_index_from_urls urls idxMap
      let from_text := extract_index_from_text full_text idxMap
      Except.ok ⟨classification, none, none, none, some (dedupFirst (from_urls ++ from_text))⟩
    else
      Except.ok ⟨classification, none, none, none, none⟩

/-! ## Theorems -/

/-- Claim C1: for every summary and description, `classify_ticket_type`
follows exactly the ordered rule chain: a SKIP-keyword match returns SKIP
with confidence 0.9 immediately; otherwise INVESTIGATION holds if and only
if the investigation score strictly beats the code-change score and is at
least 3; otherwise CODE_CHANGE exactly when the code-change score is at
least 2; otherwise the default SKIP with confidence 0.5; and each
non-default winner's confidence is `min (score / 10) 1`. -/
theorem classify_rule_chain (s d : String) :
    (skip_matches_of s d ≠ [] →
      (classify_ticket_type s d).type = "SKIP" ∧
      (classify_ticket_type s d).confidence = 9/10) ∧
    (skip_matches_of s d = [] →
      ((classify_ticket_type s d).type = "INVESTIGATION" ↔
        (code_change_score s d < investigation_score s d ∧ 3 ≤ investigation_score s d)) ∧
      ((classify_ticket_type s d).type = "INVESTIGATION" →
        (classify_ticket_type s d).confidence = min ((investigation_score s d : ℚ) / 10) 1) ∧
      (¬ (code_change_score s d < investigation_score s d ∧ 3 ≤ investigation_score s d) →
        ((classify_ticket_type s d).type = "CODE_CHANGE" ↔ 2 ≤ code_change_score s d) ∧
        (2 ≤ code_change_score s d →
          (classify_ticket_type s d).confidence = min ((code_change_score s d : ℚ) / 10) 1) ∧
        (¬ 2 ≤ code_change_score s d →
          (classify_ticket_type s d).type = "SKIP" ∧
          (classify_ticket_type s d).confidence = 1/2))) := by
  by_cases h1 : skip_matches_of s d ≠ []
  · have heq : classify_ticket_type s d =
        ⟨"SKIP", 9/10,
         "Contains skip indicators: " ++ joinComma (skip_matches_of s d),
         extractAll (fullTicketText s d)⟩ := by
      unfold classify_ticket_type; rw [if_pos h1]
    exact ⟨fun _ => ⟨by rw [heq], by rw [heq]⟩, fun h => absurd h h1⟩
  · refine ⟨fun h => absurd h h1, fun _ => ?_⟩
    by_cases h2 : code_change_score s d < investigation_score s d ∧ 3 ≤ investigation_score s d
    · have heq : classify_ticket_type s d =
          ⟨"INVESTIGATION", min ((investigation_score s d : ℚ) / 10) 1,
           "Investigation indicators: "
             ++ joinComma (find_matching_keywords (fullTicketText s d) INVESTIGATION_KEYWORDS),
           extractAll (fullTicketText s d)⟩ := by
        unfold classify_ticket_type; rw [if_neg h1, if_pos h2]
      exact ⟨iff_of_true (by rw [heq]) h2, fun _ => by rw [heq], fun h3 => absurd h2 h3⟩
    · by_cases h3 : 2 ≤ code_change_score s d
      · have heq : classify_ticket_type s d =
            ⟨"CODE_CHANGE", min ((code_change_score s d : ℚ) / 10) 1,
             "Code change indicators: "
               ++ joinComma (find_matching_keywords (fullTicketText s d) CODE_CHANGE_KEYWORDS),
             extractAll (fullTicketText s d)⟩ := by
          unfold classify_ticket_type; rw [if_neg h1, if_neg h2, if_pos h3]
        have htype : (classify_ticket_type s d).type = "CODE_CHANGE" := by rw [heq]
        refine ⟨iff_of_false (by rw [htype]; decide) h2, ?_, fun _ =>
          ⟨iff_of_true htype h3, fun _ => by rw [heq], fun hn => absurd h3 hn⟩⟩
        intro hT
        rw [htype] at hT
        exact absurd hT (by decide)
      · have heq : classify_ticket_type s d =
            ⟨"SKIP", 1/2, "No clear action indicators found",
             extractAll (fullTicketText s d)⟩ := by
          unfold classify_ticket_type; rw [if_neg h1, if_neg h2, if_neg h3]
        have htype : (classify_ticket_type s d).type = "SKIP" := by rw [heq]
        refine ⟨iff_of_false (by rw [htype]; decide) h2, ?_, fun _ =>
          ⟨iff_of_false (by rw [htype]; decide) h3, fun hc => absurd hc h3, fun _ =>
            ⟨htype, by rw [heq]⟩⟩⟩
        intro hT
        rw [htype] at hT
        exact absurd hT (by decide)

/-- Witness for `classify_rule_chain`: a skip-keyword input lands in the
override branch, and an input with a code-change keyword and a file
reference lands in the CODE_CHANGE branch. -/
theorem classify_rule_chain_witness :
    ((classify_ticket_type "meeting notes" "").type = "SKIP" ∧
      (classify_ticket_type "meeting notes" "").confidence = 9/10) ∧
    ((classify_ticket_type "add util.py" "").type = "CODE_CHANGE" ↔
      2 ≤ code_change_score "add util.py" "") := by
  refine ⟨(classify_rule_chain "meeting notes" "").1 (by decide), ?_⟩
  exact ((((classify_rule_chain "add util.py" "").2 (by decide)).2.2) (by decide)).1

/-- Claim C2: the script `analyze_ticket.py` line 33 calls
`classify_ticket_type(summary, description, comments)` with three
positional arguments while the function declares two, so every invocation
of `analyze_ticket` raises `TypeError` instead of returning a result, for
any configuration and any input strings. -/
theorem analyze_ticket_always_type_error (rules : List CodeMappingRule)
    (idxMap : List (String × String)) (summary description comments : String) :
    analyze_ticket rules idxMap summary description comments =
      Except.error (classifyTypeErrorMsg 3) := rfl

/-- Claim C5: `re.findall` on `FILE_PATTERN` returns the single capture
group `(py|yaml|json|xml)` of each match, so only the bare extension is
extracted — not the full path that the docstring and the downstream
`has_test_file_for_refs` expect. -/
theorem extract_file_refs_capture_group_only :
    extract_file_references "config/foo_test.py" = ["py"] ∧
    (extract_file_references "config/foo_test.py").contains "config/foo_test.py" = false := by
  decide

/-- Claim C7: the trailing `\b` of `FUNCTION_PATTERN` cannot hold right
after `)` unless a word character follows immediately, so a space-delimited
or text-final token `foo()` is never extracted, while `foo()x` is. -/
theorem extract_function_refs_standalone_call_missed :
    extract_function_references "call foo()" = [] ∧
    extract_function_references "foo()" = [] ∧
    extract_function_references "call foo()x" = ["foo()"] := by decide

/-- Claim C6 counterexample: on summary "why is this broken" with empty
description the classifier does NOT return SKIP. -/
theorem classify_why_broken_not_skip :
    ((classify_ticket_type "why is this broken" "").type == "SKIP") = false ∧
    (classify_ticket_type "why is this broken" "").type = "CODE_CHANGE" := by decide

/-- Claim C6 (amended): "broken" is itself a CODE_CHANGE keyword, so the
input "why is this broken" scores 2 for investigation ("why") and 2 for
code change ("broken"); the strict comparison fails and the classifier
returns CODE_CHANGE, not INVESTIGATION and not the default SKIP. -/
theorem classify_why_broken_code_change :
    (classify_ticket_type "why is this broken" "").type = "CODE_CHANGE" ∧
    ((classify_ticket_type "why is this broken" "").type == "INVESTIGATION") = false ∧
    find_matching_keywords (fullTicketText "why is this broken" "") CODE_CHANGE_KEYWORDS
      = ["broken"] ∧
    investigation_score "why is this broken" "" = 2 ∧
    code_change_score "why is this broken" "" = 2 := by decide

/-- Claim C4: because `extract_file_references` yields only extensions
(claim C5), a CODE_CHANGE ticket referencing `config/foo_test.py` with no
vague or design-decision language is still NOT eligible:
`has_test_file_for_refs ["py"]` is false, so `existing_tests` is never
granted and the score stays at 1. -/
theorem ralph_foo_test_not_eligible :
    (classify_ticket_type "fix config/foo_test.py" "").type = "CODE_CHANGE" ∧
    find_matching_keywords (fullTicketText "fix config/foo_test.py" "") VAGUE_KEYWORDS = [] ∧
    find_matching_keywords (fullTicketText "fix config/foo_test.py" "") DESIGN_DECISION_KEYWORDS
      = [] ∧
    (assess_ralph_eligibility ⟨"fix config/foo_test.py", "", ""⟩
      (classify_ticket_type "fix config/foo_test.py" "")).eligible = false ∧
    ((assess_ralph_eligibility ⟨"fix config/foo_test.py", "", ""⟩
      (classify_ticket_type "fix config/foo_test.py" "")).criteria_met.contains
        "existing_tests") = false ∧
    (assess_ralph_eligibility ⟨"fix config/foo_test.py", "", ""⟩
      (classify_ticket_type "fix config/foo_test.py" "")).criteria_met = ["specific_files"] := by
  decide

/-- Claim C3: for a CODE_CHANGE classification, eligibility holds exactly
when the accumulated signed score reaches 3 and every disqualifier is
`no_specific_scope`, and the confidence is the score divided by 6 clamped
to the unit interval. -/
theorem ralph_decision_rule (td : TicketData) (cls : Classification)
    (h : cls.type = "CODE_CHANGE") :
    ((assess_ralph_eligibility td cls).eligible = true ↔
      (3 ≤ (ralphSignals (fullTicketText td.summary td.description) cls.extracted_data).score ∧
        ∀ dq ∈ (assess_ralph_eligibility td cls).disqualifiers, dq = "no_specific_scope")) ∧
    (assess_ralph_eligibility td cls).confidence =
      max (min (((ralphSignals (fullTicketText td.summary td.description)
        cls.extracted_data).score : ℚ) / 6) 1) 0 := by
  have hne : ¬ (cls.type ≠ "CODE_CHANGE") := by simp [h]
  unfold assess_ralph_eligibility
  rw [if_neg hne]
  refine ⟨?_, rfl⟩
  simp only [Bool.and_eq_true, decide_eq_true_eq, beq_iff_eq, List.length_eq_zero,
    List.filter_eq_nil_iff, decide_eq_true_eq, not_not]

/-- Witness for `ralph_decision_rule` at a concrete CODE_CHANGE
classification. -/
theorem ralph_decision_rule_witness :
    ((assess_ralph_eligibility ⟨"add test for config/a.py", "", ""⟩
        ⟨"CODE_CHANGE", 1/2, "r", ⟨[], [], ["config/a.py"], []⟩⟩).eligible = true ↔
      (3 ≤ (ralphSignals (fullTicketText "add test for config/a.py" "")
          (⟨[], [], ["config/a.py"], []⟩ : ExtractedData)).score ∧
        ∀ dq ∈ (assess_ralph_eligibility ⟨"add test for config/a.py", "", ""⟩
          ⟨"CODE_CHANGE", 1/2, "r", ⟨[], [], ["config/a.py"], []⟩⟩).disqualifiers,
          dq = "no_specific_scope")) ∧
    (assess_ralph_eligibility ⟨"add test for config/a.py", "", ""⟩
        ⟨"CODE_CHANGE", 1/2, "r", ⟨[], [], ["config/a.py"], []⟩⟩).confidence =
      max (min (((ralphSignals (fullTicketText "add test for config/a.py" "")
        (⟨[], [], ["config/a.py"], []⟩ : ExtractedData)).score : ℚ) / 6) 1) 0 :=
  ralph_decision_rule ⟨"add test for config/a.py", "", ""⟩
    ⟨"CODE_CHANGE", 1/2, "r", ⟨[], [], ["config/a.py"], []⟩⟩ rfl

/-- Claim C10: `assess_ralph_eligibility` reads only the summary and
description of `ticket_data`; two tickets differing only in their comments
entry produce identical eligibility results. -/
theorem ralph_comment_noninterference (t1 t2 : TicketData) (cls : Classification)
    (h1 : t1.summary = t2.summary) (h2 : t1.description = t2.description) :
    assess_ralph_eligibility t1 cls = assess_ralph_eligibility t2 cls := by
  unfold assess_ralph_eligibility
  rw [h1, h2]

/-- Witness for `ralph_comment_noninterference`: two tickets with different
comments give the same result. -/
theorem ralph_comment_noninterference_witness :
    ("first comment" : String) ≠ "second comment" ∧
    assess_ralph_eligibility ⟨"fix a.py", "d", "first comment"⟩
        ⟨"CODE_CHANGE", 1/2, "r", ⟨[], [], ["py"], []⟩⟩ =
      assess_ralph_eligibility ⟨"fix a.py", "d", "second comment"⟩
        ⟨"CODE_CHANGE", 1/2, "r", ⟨[], [], ["py"], []⟩⟩ :=
  ⟨by decide,
   ralph_comment_noninterference ⟨"fix a.py", "d", "first comment"⟩
     ⟨"fix a.py", "d", "second comment"⟩
     ⟨"CODE_CHANGE", 1/2, "r", ⟨[], [], ["py"], []⟩⟩ rfl rfl⟩

/-- The `seen` loop of `get_primary_files` is first-occurrence
deduplication of the confidence-filtered ranked list. -/
theorem primaryLoop_eq_dedup (ms : List FileMapping) (seen : List String) :
    primaryLoop ms seen =
      dedupFirstAux (ms.filterMap
        (fun m => if (3 : ℚ)/10 ≤ m.confidence then some m.file else none)) seen := by
  induction ms generalizing seen with
  | nil => rfl
  | cons m ms ih =>
    by_cases hc : (3 : ℚ)/10 ≤ m.confidence
    · by_cases hs : m.file ∈ seen
      · simp only [primaryLoop, List.filterMap_cons, if_pos hc, dedupFirstAux, if_pos hs,
          if_neg (fun hand => hand.1 hs : ¬ (m.file ∉ seen ∧ (3 : ℚ)/10 ≤ m.confidence))]
        exact ih seen
      · simp only [primaryLoop, List.filterMap_cons, if_pos hc, dedupFirstAux, if_neg hs,
          if_pos (⟨hs, hc⟩ : m.file ∉ seen ∧ (3 : ℚ)/10 ≤ m.confidence)]
        rw [ih]
    · simp only [primaryLoop, List.filterMap_cons, if_neg hc,
        if_neg (fun hand => hc hand.2 : ¬ (m.file ∉ seen ∧ (3 : ℚ)/10 ≤ m.confidence))]
      exact ih seen

/-- First-occurrence deduplication yields a duplicate-free list avoiding
the `seen` accumulator. -/
theorem dedupFirstAux_nodup (l : List String) :
    ∀ seen, (dedupFirstAux l seen).Nodup ∧ ∀ x ∈ dedupFirstAux l seen, x ∉ seen := by
  induction l with
  | nil => intro seen; exact ⟨List.nodup_nil, by simp [dedupFirstAux]⟩
  | cons a as ih =>
    intro seen
    by_cases ha : a ∈ seen
    · simp only [dedupFirstAux, if_pos ha]
      exact ih seen
    · simp only [dedupFirstAux, if_neg ha]
      obtain ⟨hnd, hnotin⟩ := ih (a :: seen)
      refine ⟨List.nodup_cons.mpr ⟨?_, hnd⟩, ?_⟩
      · intro hmem
        exact hnotin a hmem (List.mem_cons_self a seen)
      · intro y hy
        rcases List.mem_cons.mp hy with rfl | hy2
        · exact ha
        · intro hyseen
          exact hnotin y hy2 (List.mem_cons_of_mem a hyseen)

/-- Membership in a first-occurrence deduplication comes from the list. -/
theorem mem_of_mem_dedupFirstAux (x : String) (l : List String) :
    ∀ seen, x ∈ dedupFirstAux l seen → x ∈ l := by
  induction l with
  | nil => intro seen h; simp [dedupFirstAux] at h
  | cons a as ih =>
    intro seen h
    by_cases ha : a ∈ seen
    · simp only [dedupFirstAux, if_pos ha] at h
      exact List.mem_cons_of_mem a (ih seen h)
    · simp only [dedupFirstAux, if_neg ha] at h
      rcases List.mem_cons.mp h with rfl | h2
      · exact List.mem_cons_self x as
      · exact List.mem_cons_of_mem a (ih (a :: seen) h2)

/-- Claim C8: `get_primary_files` returns at most 5 pairwise-distinct file
paths, each coming from a ranked mapping entry of confidence at least 0.3,
and equals the first-occurrence deduplication of the confidence-filtered
ranked list capped at 5. -/
theorem get_primary_files_spec (text : String) (rules : List CodeMappingRule) :
    (get_primary_files text rules).length ≤ 5 ∧
    (get_primary_files text rules).Nodup ∧
    (∀ f ∈ get_primary_files text rules,
      ∃ m ∈ map_keywords_to_files text rules, m.file = f ∧ (3 : ℚ)/10 ≤ m.confidence) ∧
    get_primary_files text rules =
      (dedupFirst ((map_keywords_to_files text rules).filterMap
        (fun m => if (3 : ℚ)/10 ≤ m.confidence then some m.file else none))).take 5 := by
  have hmain : get_primary_files text rules =
      (dedupFirstAux ((map_keywords_to_files text rules).filterMap
        (fun m => if (3 : ℚ)/10 ≤ m.confidence then some m.file else none)) []).take 5 := by
    unfold get_primary_files
    rw [primaryLoop_eq_dedup]
  refine ⟨?_, ?_, ?_, hmain⟩
  · rw [hmain, List.length_take]
    exact min_le_left _ _
  · rw [hmain]
    exact (List.take_sublist 5 _).nodup (dedupFirstAux_nodup _ []).1
  · intro f hf
    rw [hmain] at hf
    have h2 := mem_of_mem_dedupFirstAux f _ [] (List.mem_of_mem_take hf)
    obtain ⟨m, hm, hsome⟩ := List.mem_filterMap.mp h2
    by_cases hc : (3 : ℚ)/10 ≤ m.confidence
    · rw [if_pos hc] at hsome
      exact ⟨m, hm, Option.some.inj hsome, hc⟩
    · rw [if_neg hc] at hsome
      exact absurd hsome (by simp)

/-- Witness for `get_primary_files_spec` at a concrete text and the
built-in default rule table. -/
theorem get_primary_files_spec_witness :
    (get_primary_files "update the site config settings" DEFAULT_CODE_MAPPING_RULES).length ≤ 5 ∧
    (get_primary_files "update the site config settings" DEFAULT_CODE_MAPPING_RULES).Nodup :=
  ⟨(get_primary_files_spec "update the site config settings" DEFAULT_CODE_MAPPING_RULES).1,
   (get_primary_files_spec "update the site config settings" DEFAULT_CODE_MAPPING_RULES).2.1⟩

/-- Python `max(user_comments, key=...)` returns an element of the list. -/
theorem foldl_latest_mem (c : JComment) (rest : List JComment) :
    rest.foldl (fun acc x => if strLt acc.created x.created then x else acc) c ∈ c :: rest := by
  induction rest generalizing c with
  | nil => exact List.mem_cons_self c []
  | cons x xs ih =>
    simp only [List.foldl_cons]
    by_cases h : strLt c.created x.created
    · rw [if_pos h]
      exact List.mem_cons_of_mem c (ih x)
    · rw [if_neg h]
      rcases List.mem_cons.mp (ih c) with h1 | h2
      · rw [h1]
        exact List.mem_cons_self c (x :: xs)
      · exact List.mem_cons_of_mem c (List.mem_cons_of_mem x h2)

/-- The latest user comment is one of the user's comments. -/
theorem get_latest_mem (cs : List JComment) (uid : String) (latest : JComment)
    (h : get_latest_user_comment cs uid = some latest) :
    latest ∈ find_user_comments cs uid := by
  unfold get_latest_user_comment at h
  rcases hfu : find_user_comments cs uid with _ | ⟨c, rest⟩
  · rw [hfu] at h
    exact absurd h (by simp)
  · rw [hfu] at h
    injection h with h2
    rw [← h2]
    exact foldl_latest_mem c rest

/-- A member of `find_user_comments` forces a nonempty account id and is a
comment of the list authored by that account. -/
theorem find_user_facts (cs : List JComment) (uid : String) (x : JComment)
    (h : x ∈ find_user_comments cs uid) :
    uid ≠ "" ∧ x ∈ cs ∧ x.accountId = some uid := by
  unfold find_user_comments at h
  by_cases hg : cs.isEmpty || uid == ""
  · rw [if_pos hg] at h
    simp at h
  · rw [if_neg hg] at h
    have hm := List.mem_filter.mp h
    refine ⟨?_, hm.1, by simpa using hm.2⟩
    intro huid
    exact hg (by simp [huid])

/-- Claim C9 (amended): `has_followup_from_others` is false when the
account has no comments (including an empty list or empty account id);
otherwise, provided the account's latest comment carries a nonempty
`created` string, it is true exactly when some comment by a different
author is strictly later; an empty `created` on the latest comment yields
false regardless (`get_comments_after` treats an empty timestamp as
no-results); in particular the result is false when no comment is strictly
later than the user's latest. -/
theorem has_followup_spec (cs : List JComment) (uid : String) :
    ((uid = "" ∨ ∀ c ∈ cs, ¬ c.accountId = some uid) →
      has_followup_from_others cs uid = false) ∧
    (∀ latest, get_latest_user_comment cs uid = some latest →
      (latest.created = "" → has_followup_from_others cs uid = false) ∧
      (latest.created ≠ "" →
        (has_followup_from_others cs uid = true ↔
          ∃ c ∈ cs, ¬ c.accountId = some uid ∧ strLt latest.created c.created = true)) ∧
      ((∀ c ∈ cs, strLt latest.created c.created = false) →
        has_followup_from_others cs uid = false)) := by
  constructor
  · intro h
    have hfu : find_user_comments cs uid = [] := by
      unfold find_user_comments
      by_cases hg : cs.isEmpty || uid == ""
      · rw [if_pos hg]
      · rw [if_neg hg]
        rcases h with h | h
        · exact absurd (by simp [h]) hg
        · exact List.filter_eq_nil_iff.mpr (fun c hc => by simpa using h c hc)
    unfold has_followup_from_others get_latest_user_comment
    rw [hfu]
  · intro latest hlatest
    obtain ⟨huid, hcs, _⟩ := find_user_facts cs uid latest (get_latest_mem cs uid latest hlatest)
    have hfol : has_followup_from_others cs uid =
        decide (0 < (get_comments_after cs latest.created (some uid)).length) := by
      unfold has_followup_from_others
      rw [hlatest]
    have hcsne : cs.isEmpty = false := by
      simp [List.isEmpty_iff, List.ne_nil_of_mem hcs]
    have htruthy : excludeIsTruthy (some uid) = true := by
      simp [excludeIsTruthy, huid]
    refine ⟨?_, ?_, ?_⟩
    · intro hempty
      rw [hfol]
      unfold get_comments_after
      rw [if_pos (by simp [hempty])]
      rfl
    · intro hne
      rw [hfol]
      unfold get_comments_after
      rw [if_neg (by simp [hcsne, hne])]
      constructor
      · intro ht
        obtain ⟨c, hc⟩ := List.exists_mem_of_length_pos (of_decide_eq_true ht)
        have hm := List.mem_filter.mp hc
        have hp := hm.2
        rw [htruthy] at hp
        simp only [Bool.and_eq_true, Bool.true_and, Bool.not_eq_true'] at hp
        exact ⟨c, hm.1, by simpa using hp.2, hp.1⟩
      · rintro ⟨c, hc, hne2, hlt⟩
        apply decide_eq_true
        refine List.length_pos_of_mem (List.mem_filter.mpr ⟨hc, ?_⟩)
        rw [htruthy, hlt]
        simp [hne2]
    · intro hall
      rw [hfol]
      by_cases hempty : latest.created = ""
      · unfold get_comments_after
        rw [if_pos (by simp [hempty])]
        rfl
      · unfold get_comments_after
        rw [if_neg (by simp [hcsne, hempty])]
        rw [List.filter_eq_nil_iff.mpr (fun c hc => by simp [hall c hc])]
        rfl

/-- Claim C9 counterexample: the account's latest comment has an empty
`created` string, a later comment by another author exists, yet the
function returns false because `get_comments_after` short-circuits on an
empty timestamp. -/
theorem has_followup_counterexample :
    get_latest_user_comment
        [⟨some "u", ""⟩, ⟨some "v", "2024-01-05T10:00:00.000+0000"⟩] "u" =
      some ⟨some "u", ""⟩ ∧
    ((⟨some "v", "2024-01-05T10:00:00.000+0000"⟩ : JComment) ∈
      ([⟨some "u", ""⟩, ⟨some "v", "2024-01-05T10:00:00.000+0000"⟩] : List JComment)) ∧
    ((⟨some "v", "2024-01-05T10:00:00.000+0000"⟩ : JComment).accountId == some "u") = false ∧
    strLt "" "2024-01-05T10:00:00.000+0000" = true ∧
    has_followup_from_others
        [⟨some "u", ""⟩, ⟨some "v", "2024-01-05T10:00:00.000+0000"⟩] "u" = false := by
  decide

/-- Witness for `has_followup_spec`: a user whose latest comment is
followed by another author's comment. -/
theorem has_followup_spec_witness :
    has_followup_from_others
      [⟨some "a", "2024-01-01"⟩, ⟨some "b", "2024-01-02"⟩] "a" = true := by
  have h := (has_followup_spec [⟨some "a", "2024-01-01"⟩, ⟨some "b", "2024-01-02"⟩] "a").2
    ⟨some "a", "2024-01-01"⟩ (by decide)
  exact (h.2.1 (by decide)).mpr ⟨⟨some "b", "2024-01-02"⟩, by decide, by decide, by decide⟩

end JiraProc

